import Mathlib

/-!
Verification development for the `net_check` network-connectivity prober
(Sender / Listener pair with a raw frame codec, probe-message format,
connectivity report and readiness handshake).

The repository ships the test-suite of the prober
(`network_checker/net_check/tests/test_net_check.py`); the implementation
module `net_check/api.py` itself is not part of the provided sources, so the
codec, probe-message, report, sender and listener operations below are
modelled from the specification document, with the concrete values
(configurations, payloads, expected reports) taken from the test-suite.

All machine integers are modelled as `Nat` with explicit `% 256` / `% 65536`
where byte- or word-width matters; raw frames are `List Nat` of byte values.
-/

set_option maxRecDepth 4000

namespace NetCheck

/-! ## Frame codec -/

/-- Modelled from the spec: `DecodeError` of the frame codec (§4.1); the only
codec error is `Malformed`, for frames shorter than the minimum headers. -/
inductive DecodeError where
  | malformed
deriving DecidableEq

/-- Modelled from the spec: the structured view produced by `Decode` (§4.1):
vlan id, UDP ports, the UDP header's declared length and the payload sliced
to exactly `declared_length - 8` bytes. -/
structure FrameView where
  vlan : Nat
  sport : Nat
  dport : Nat
  udpLen : Nat
  payload : List Nat
deriving DecidableEq

/-- High byte of a 16-bit big-endian field. -/
def hi8 (n : Nat) : Nat := n / 256 % 256

/-- Low byte of a 16-bit big-endian field. -/
def lo8 (n : Nat) : Nat := n % 256

/-- Byte `i` of a byte list, `0` when out of range. -/
def byteAt (l : List Nat) (i : Nat) : Nat := l.getD i 0

/-- Modelled from the spec: the 12 address bytes of an Ethernet header
(destination MAC then source MAC), prior to the ethertype field. -/
def ethHeader (dmac smac : List Nat) : List Nat :=
  [byteAt dmac 0, byteAt dmac 1, byteAt dmac 2, byteAt dmac 3, byteAt dmac 4, byteAt dmac 5,
   byteAt smac 0, byteAt smac 1, byteAt smac 2, byteAt smac 3, byteAt smac 4, byteAt smac 5]

/-- Modelled from the spec: a minimal 20-byte IPv4 header carrying protocol
UDP (17) and the source/destination addresses; checksum not modelled. -/
def ipHeader (sip dip : List Nat) (totalLen : Nat) : List Nat :=
  [69, 0, hi8 totalLen, lo8 totalLen, 0, 0, 0, 0, 64, 17, 0, 0,
   byteAt sip 0, byteAt sip 1, byteAt sip 2, byteAt sip 3,
   byteAt dip 0, byteAt dip 1, byteAt dip 2, byteAt dip 3]

/-- Modelled from the spec: the 8-byte UDP header with the declared length
field (§4.1); checksum not modelled. -/
def udpHeader (sport dport udpLen : Nat) : List Nat :=
  [hi8 sport, lo8 sport, hi8 dport, lo8 dport, hi8 udpLen, lo8 udpLen, 0, 0]

/-- Modelled from the spec: the 4-byte 802.1Q tag (§4.1): ethertype `0x8100`
(`129, 0`) followed by the TCI with priority 0 and the 12-bit vlan id. -/
def vlanTag (vlan : Nat) : List Nat := [129, 0, hi8 vlan % 16, lo8 vlan]

/-- Modelled from the spec: raw frame construction with an explicitly chosen
declared UDP length (the test-suite builds a frame whose declared UDP length
is shorter than its physical payload); `Encode` (§4.1) instantiates this with
`udpLen = 8 + payload.length`.  If `vlan ≠ 0` an 802.1Q tag is inserted
between the Ethernet header and the IP header, otherwise no tag is present. -/
def buildFrame (vlan : Nat) (smac dmac sip dip : List Nat) (sport dport udpLen : Nat)
    (payload : List Nat) : List Nat :=
  ethHeader dmac smac
    ++ (if vlan = 0 then [8, 0] else vlanTag vlan ++ [8, 0])
    ++ ipHeader sip dip (20 + udpLen)
    ++ udpHeader sport dport udpLen
    ++ payload

/-- Modelled from the spec: `Encode` (§4.1); the declared UDP length is
`8 + payload.length`, independent of link-layer padding. -/
def encode (vlan : Nat) (smac dmac sip dip : List Nat) (sport dport : Nat)
    (payload : List Nat) : List Nat :=
  buildFrame vlan smac dmac sip dip sport dport (8 + payload.length) payload

/-- Modelled from the spec: parsing of the IP (20 bytes, skipped) and UDP
(8 bytes) headers; the payload is sliced to exactly `declared_length - 8`
bytes, discarding any further bytes present in the physical frame (§4.1). -/
def decodeIpUdp (vlan : Nat) (b : List Nat) : Except DecodeError FrameView :=
  match b with
  | _i0 :: _i1 :: _i2 :: _i3 :: _i4 :: _i5 :: _i6 :: _i7 :: _i8 :: _i9 ::
    _i10 :: _i11 :: _i12 :: _i13 :: _i14 :: _i15 :: _i16 :: _i17 :: _i18 :: _i19 ::
    s0 :: s1 :: d0 :: d1 :: l0 :: l1 :: _c0 :: _c1 :: rest =>
      .ok ⟨vlan, 256 * s0 + s1, 256 * d0 + d1, 256 * l0 + l1,
           rest.take (256 * l0 + l1 - 8)⟩
  | _ => .error .malformed

/-- Modelled from the spec: the Ethernet-level part of `Decode` (§4.1):
detect an 802.1Q tag (ethertype `0x8100 = 33024`) and extract the 12-bit
vlan id, defaulting to `0` when the tag is absent. -/
def decodeCore (b : List Nat) : Except DecodeError FrameView :=
  match b with
  | _d0 :: _d1 :: _d2 :: _d3 :: _d4 :: _d5 :: _s0 :: _s1 :: _s2 :: _s3 :: _s4 :: _s5 ::
    e0 :: e1 :: rest =>
      if 256 * e0 + e1 = 33024 then
        match rest with
        | t0 :: t1 :: _p0 :: _p1 :: rest2 => decodeIpUdp ((t0 % 16) * 256 + t1) rest2
        | _ => .error .malformed
      else decodeIpUdp 0 rest
  | _ => .error .malformed

/-- Modelled from the spec: `Decode` (§4.1); frames shorter than the minimum
required headers (14 Ethernet + 20 IP + 8 UDP = 42 bytes) are rejected as
`Malformed`; decode is a total function, never crashing on truncated or
oversized input. -/
def decode (b : List Nat) : Except DecodeError FrameView :=
  if b.length < 42 then .error .malformed else decodeCore b

/-- Whether a raw frame carries an 802.1Q tag: ethertype bytes 12/13 equal
`0x8100`. -/
def hasTag (b : List Nat) : Bool :=
  match b with
  | _ :: _ :: _ :: _ :: _ :: _ :: _ :: _ :: _ :: _ :: _ :: _ :: e0 :: e1 :: _ =>
      256 * e0 + e1 == 33024
  | _ => false

/-! ## Probe message -/

/-- Modelled from the spec: probe-message parse results (§4.2): `ok` on a
cookie match with a space separator, `mismatch` (None, foreign traffic) when
the payload does not start with the cookie, `malformed` when no space is
found after cookie-stripping. -/
inductive ParseResult where
  | ok (origin uid : List Nat)
  | mismatch
  | malformed
deriving DecidableEq

/-- `leadsWith pat l` is true when `l` starts with the byte pattern `pat`. -/
def leadsWith : List Nat → List Nat → Bool
  | [], _ => true
  | _ :: _, [] => false
  | p :: ps, x :: xs => p = x && leadsWith ps xs

/-- `hasSub pat l` is true when `pat` occurs contiguously inside `l`. -/
def hasSub (pat : List Nat) : List Nat → Bool
  | [] => leadsWith pat []
  | x :: xs => leadsWith pat (x :: xs) || hasSub pat xs

/-- Split a byte list at the first space byte (`32`). -/
def splitSpace : List Nat → Option (List Nat × List Nat)
  | [] => none
  | c :: cs =>
      if c = 32 then some ([], cs)
      else (splitSpace cs).map (fun p => (c :: p.1, p.2))

/-- Modelled from the spec: `Serialize` (§4.2):
`cookie_bytes ++ origin_interface_bytes ++ b" " ++ uid_bytes`. -/
def serializeProbe (cookie origin uid : List Nat) : List Nat :=
  cookie ++ origin ++ 32 :: uid

/-- Modelled from the spec: `Parse` (§4.2): check the cookie, strip it, and
split the remainder on the first space into origin interface and uid. -/
def parseProbe (payload cookie : List Nat) : ParseResult :=
  if leadsWith cookie payload then
    match splitSpace (payload.drop cookie.length) with
    | some (o, u) => .ok o u
    | none => .malformed
  else .mismatch

/-- Byte values of the characters of a string. -/
def strBytes (s : String) : List Nat := s.data.map Char.toNat

/-! ## Connectivity Report

Modelled from the spec (§3): a three-level mapping
`capturing_interface → vlan_id → sender_uid → set_of(origin_interface)`.
Maps are association lists preserving first-insertion order; the innermost
collection is kept duplicate-free by the insert operation. -/

/-- One innermost collection of origin interfaces (byte strings). -/
abbrev Leaf := List (List Nat)

/-- uid → set of origin interfaces. -/
abbrev UidMap := List (List Nat × Leaf)

/-- vlan id → uid map. -/
abbrev VlanMap := List (Nat × UidMap)

/-- Modelled from the spec: the Connectivity Report,
capturing interface → vlan map. -/
abbrev Report := List (String × VlanMap)

/-- Insert an origin interface into a leaf with set semantics: a duplicate
identical observation leaves the leaf unchanged. -/
def insLeaf (o : List Nat) (s : Leaf) : Leaf := if o ∈ s then s else s ++ [o]

/-- Update the value at key `k` of an association list with `f`, treating a
missing key as holding the default `d`; insertion order is preserved. -/
def updA {α β : Type} [DecidableEq α] (k : α) (d : β) (f : β → β) :
    List (α × β) → List (α × β)
  | [] => [(k, f d)]
  | (k', v) :: t => if k = k' then (k', f v) :: t else (k', v) :: updA k d f t

/-- Look up a key in an association list. -/
def findA {α β : Type} [DecidableEq α] (k : α) : List (α × β) → Option β
  | [] => none
  | (k', v) :: t => if k = k' then some v else findA k t

/-- Modelled from the spec: the single aggregation point of the Listener
(§4.4): insert `(vlan, uid, origin)` under the capturing interface with set
semantics at the leaf. -/
def insertReport (r : Report) (cif : String) (vlan : Nat) (uid origin : List Nat) :
    Report :=
  updA cif [] (fun vm =>
    updA vlan [] (fun um =>
      updA uid [] (insLeaf origin) um) vm) r

/-- The innermost collection found under a
`(capturing_interface, vlan, uid)` key path, `[]` when absent. -/
def leafAt (r : Report) (cif : String) (vlan : Nat) (uid : List Nat) : Leaf :=
  (findA uid ((findA vlan ((findA cif r).getD [])).getD [])).getD []

/-- The vlan-id keys recorded under a capturing interface. -/
def vlanKeys (r : Report) (cif : String) : List Nat :=
  ((findA cif r).getD []).map Prod.fst

/-- Insert the same observation `n` times in a row. -/
def insertN (n : Nat) (r : Report) (cif : String) (vlan : Nat) (uid origin : List Nat) :
    Report :=
  match n with
  | 0 => r
  | n + 1 => insertN n (insertReport r cif vlan uid origin) cif vlan uid origin

/-! ## Configuration -/

/-- Modelled from the spec: `ProbeConfig` (§3, §6), with each interface's
vlan ids encoded, as in the test-suite configurations, as a single
comma-separated string of decimal numbers. -/
structure Config where
  src : List Nat
  dst : List Nat
  srcMac : List Nat
  interfaces : List (String × String)
  action : String
  cookie : List Nat
  sport : Nat
  dport : Nat
  readyAddress : String
  readyPort : Nat
  dumpFile : String
  uid : List Nat

/-- Split a character list on commas. -/
def splitComma : List Char → List (List Char)
  | [] => [[]]
  | c :: t =>
      if c = ',' then [] :: splitComma t
      else
        match splitComma t with
        | h :: r => (c :: h) :: r
        | [] => [[c]]

/-- Decimal value of a digit string. -/
def decVal (l : List Char) : Nat := l.foldl (fun a c => 10 * a + (c.toNat - 48)) 0

/-- Modelled from the spec: the configuration's vlan ids for one interface,
parsed from the comma-separated decimal string of the configuration. -/
def parseVlans (s : String) : List Nat := (splitComma s.data).map decVal

/-- Concatenation of the lists produced by `f` over `l` (in order). -/
def cat2 {α β : Type} (f : α → List β) : List α → List β
  | [] => []
  | x :: t => f x ++ cat2 f t

/-! ## Sender -/

/-- The all-ones broadcast destination MAC used by the probes. -/
def broadcastMac : List Nat := [255, 255, 255, 255, 255, 255]

/-- Modelled from the spec: the Sender (§4.3): for every `(interface, vlan)`
pair of the configuration, in order, one frame encoded with payload
`Serialize(cookie, interface, uid)`, transmitted on that interface. -/
def senderFrames (cfg : Config) : List (String × List Nat) :=
  cat2 (fun p =>
    (parseVlans p.2).map (fun v =>
      (p.1, encode v cfg.srcMac broadcastMac cfg.src cfg.dst cfg.sport cfg.dport
        (serializeProbe cfg.cookie (strBytes p.1) cfg.uid)))) cfg.interfaces

/-- The vlan id a captured frame is attributed to (`0` when undecodable);
used to compare the vlan ids observable on the wire with the configured
ones. -/
def vlanOf (b : List Nat) : Nat :=
  match decode b with
  | .ok view => view.vlan
  | .error _ => 0

/-! ## Listener -/

/-- Modelled from the spec: one step of the Listener's capture loop (§4.4):
decode the raw frame; on decode failure skip; apply the destination-port
filter; attempt `Parse` with the configured cookie; on success insert into
the report, otherwise skip.  In every skip case the report is returned
unchanged and capture continues. -/
def processFrame (cookie : List Nat) (dport : Nat) (r : Report) (cif : String)
    (bytes : List Nat) : Report :=
  match decode bytes with
  | .error _ => r
  | .ok view =>
      if view.dport = dport then
        match parseProbe view.payload cookie with
        | .ok origin uid => insertReport r cif view.vlan uid origin
        | _ => r
      else r

/-- Modelled from the spec: the Report accumulated by the Listener over the
finite sequence of frames captured (each paired with its capturing
interface) before the termination signal (§4.4). -/
def finalReport (cfg : Config) (captured : List (String × List Nat)) : Report :=
  captured.foldl (fun r p => processFrame cfg.cookie cfg.dport r p.1 p.2) []

/-! ## Report serialization -/

/-- A minimal JSON value model for the dump file. -/
inductive Json where
  | str (s : String)
  | arr (elems : List Json)
  | obj (fields : List (String × Json))

/-- The string whose characters have the given byte values. -/
def bytesToString (b : List Nat) : String := String.mk (b.map Char.ofNat)

/-- JSON array of origin-interface strings. -/
def leafJson (lf : Leaf) : Json := .arr (lf.map (fun o => .str (bytesToString o)))

/-- JSON object keyed by uid strings. -/
def uidJson (um : UidMap) : Json :=
  .obj (um.map (fun p => (bytesToString p.1, leafJson p.2)))

/-- JSON object keyed by vlan ids rendered as decimal strings. -/
def vlanJson (vm : VlanMap) : Json :=
  .obj (vm.map (fun p => (toString p.1, uidJson p.2)))

/-- Modelled from the spec: the dump-file format (§6):
`{capturing_interface: {vlan_id_as_string: {uid_as_string: [origin, ...]}}}`
with vlan ids rendered as decimal strings. -/
def reportJson (r : Report) : Json := .obj (r.map (fun p => (p.1, vlanJson p.2)))

/-! ## Listener run trace -/

/-- Modelled from the spec: the observable events of one Listener run (§4.4,
§4.5, §6): opening the per-interface capture handles, emitting the readiness
token over the handshake connection and closing it, recording capture
events, and the single report dump on termination. -/
inductive Event where
  | openCapture (iface : String)
  | emitReady (tok : String)
  | closeHandshake
  | record (cif : String) (vlan : Nat) (uid origin : List Nat)
  | dumpReport (path : String) (content : Json)

/-- Whether an event is a report dump. -/
def isDump : Event → Bool
  | .dumpReport _ _ => true
  | _ => false

/-- Whether an event is the readiness-token emission. -/
def isReady : Event → Bool
  | .emitReady _ => true
  | _ => false

/-- Whether an event opens a capture handle. -/
def isOpen : Event → Bool
  | .openCapture _ => true
  | _ => false

/-- The record event (if any) produced by one captured frame, mirroring
`processFrame`. -/
def recordEvents (cookie : List Nat) (dport : Nat) (p : String × List Nat) :
    List Event :=
  match decode p.2 with
  | .error _ => []
  | .ok view =>
      if view.dport = dport then
        match parseProbe view.payload cookie with
        | .ok origin uid => [Event.record p.1 view.vlan uid origin]
        | _ => []
      else []

/-- Modelled from the spec: the event trace of one Listener run (§4.4): all
capture handles are opened first, then the readiness token `READY` is
emitted once and the handshake connection closed, then capture events are
recorded, and on the termination signal the report is serialized to the
configured dump path exactly once, after which the Listener exits. -/
def listenerTrace (cfg : Config) (captured : List (String × List Nat)) : List Event :=
  (cfg.interfaces.map (fun p => Event.openCapture p.1))
    ++ [Event.emitReady "READY", Event.closeHandshake]
    ++ cat2 (recordEvents cfg.cookie cfg.dport) captured
    ++ [Event.dumpReport cfg.dumpFile (reportJson (finalReport cfg captured))]

/-! ## Concrete fixtures from the test-suite -/

/-- A null source MAC (the configurations pass `src_mac = None`). -/
def zeroMac : List Nat := [0, 0, 0, 0, 0, 0]

/-- The test-suite IP `1.0.0.0`. -/
def ip1 : List Nat := [1, 0, 0, 0]

/-- The default configuration of the listener test cases. -/
def testCfg : Config :=
  { src := ip1, dst := ip1, srcMac := zeroMac,
    interfaces := [("eth0", "0,100,100,101,102,103,104,105,106,107")],
    action := "listen", cookie := strBytes "Nailgun:",
    sport := 31337, dport := 31337,
    readyAddress := "localhost", readyPort := 0,
    dumpFile := "/var/tmp/net-probe-dump", uid := strBytes "2" }

/-- The configuration of the sender test case. -/
def senderCfg : Config :=
  { testCfg with interfaces := [("eth0", "0,100,101,102,106,107,108")] }

/-- The probe payload of the corrupted-data test: `"Nailgun:eth0 2"`. -/
def nailgunPayload : List Nat := strBytes "Nailgun:eth0 2"

/-- The corrupted-data test frame: declared UDP length `22` (8 header bytes
plus the 14 payload bytes) with extra garbage bytes physically appended
beyond the declared length. -/
def corruptedFrame (garbage : List Nat) : List Nat :=
  buildFrame 0 zeroMac broadcastMac ip1 ip1 31337 31337 22 (nailgunPayload ++ garbage)

/-- The same frame without the appended garbage. -/
def normalFrame : List Nat :=
  encode 0 zeroMac broadcastMac ip1 ip1 31337 31337 nailgunPayload

/-- A well-formed probe frame for a given vlan and uid, as replayed from the
`vlan.pcap` capture in the pcap-file listener test. -/
def probeFrame (v : Nat) (uid : String) : List Nat :=
  encode v zeroMac broadcastMac ip1 ip1 31337 31337
    (serializeProbe (strBytes "Nailgun:") (strBytes "eth0") (strBytes uid))

/-- The captured traffic of the pcap-file scenario: tagged probes for vlans
100..107 from uids `1` and `2`, plus one probe on a vlan (999) absent from
the configuration. -/
def pcapCaptured : List (String × List Nat) :=
  cat2 (fun v => [("eth0", probeFrame v "1"), ("eth0", probeFrame v "2")])
    [100, 101, 102, 103, 104, 105, 106, 107]
    ++ [("eth0", probeFrame 999 "2")]

/-! ## Codec lemmas -/

theorem rd16_eq (n : Nat) : 256 * hi8 n + lo8 n = n % 65536 := by
  unfold hi8 lo8; omega

theorem rd16_eq_self (n : Nat) (h : n < 65536) : 256 * hi8 n + lo8 n = n := by
  rw [rd16_eq]; omega

theorem length_buildFrame (vlan : Nat) (smac dmac sip dip : List Nat)
    (sport dport udpLen : Nat) (payload : List Nat) :
    (buildFrame vlan smac dmac sip dip sport dport udpLen payload).length =
      (if vlan = 0 then 42 else 46) + payload.length := by
  by_cases h : vlan = 0 <;>
    simp [buildFrame, ethHeader, ipHeader, udpHeader, vlanTag, h] <;> omega

theorem decode_buildFrame0 (smac dmac sip dip : List Nat) (sport dport udpLen : Nat)
    (payload : List Nat) (hs : sport < 65536) (hd : dport < 65536) (hu : udpLen < 65536) :
    decode (buildFrame 0 smac dmac sip dip sport dport udpLen payload) =
      .ok ⟨0, sport, dport, udpLen, payload.take (udpLen - 8)⟩ := by
  unfold decode
  rw [if_neg (by rw [length_buildFrame]; simp)]
  have h0 : decodeCore (buildFrame 0 smac dmac sip dip sport dport udpLen payload) =
      .ok ⟨0, 256 * hi8 sport + lo8 sport, 256 * hi8 dport + lo8 dport,
           256 * hi8 udpLen + lo8 udpLen,
           payload.take (256 * hi8 udpLen + lo8 udpLen - 8)⟩ := rfl
  rw [h0, rd16_eq_self sport hs, rd16_eq_self dport hd, rd16_eq_self udpLen hu]

theorem decode_buildFrameV (vlan : Nat) (smac dmac sip dip : List Nat)
    (sport dport udpLen : Nat) (payload : List Nat)
    (hv : vlan < 4096) (h0 : vlan ≠ 0)
    (hs : sport < 65536) (hd : dport < 65536) (hu : udpLen < 65536) :
    decode (buildFrame vlan smac dmac sip dip sport dport udpLen payload) =
      .ok ⟨vlan, sport, dport, udpLen, payload.take (udpLen - 8)⟩ := by
  have hb : buildFrame vlan smac dmac sip dip sport dport udpLen payload =
      ethHeader dmac smac ++ (vlanTag vlan ++ [8, 0])
        ++ ipHeader sip dip (20 + udpLen) ++ udpHeader sport dport udpLen ++ payload := by
    unfold buildFrame; rw [if_neg h0]
  unfold decode
  rw [if_neg (by rw [length_buildFrame, if_neg h0]; omega)]
  rw [hb]
  have hcore : decodeCore (ethHeader dmac smac ++ (vlanTag vlan ++ [8, 0])
      ++ ipHeader sip dip (20 + udpLen) ++ udpHeader sport dport udpLen ++ payload) =
      .ok ⟨(hi8 vlan % 16 % 16) * 256 + lo8 vlan, 256 * hi8 sport + lo8 sport,
           256 * hi8 dport + lo8 dport, 256 * hi8 udpLen + lo8 udpLen,
           payload.take (256 * hi8 udpLen + lo8 udpLen - 8)⟩ := rfl
  rw [hcore, rd16_eq_self sport hs, rd16_eq_self dport hd, rd16_eq_self udpLen hu]
  have hvl : (hi8 vlan % 16 % 16) * 256 + lo8 vlan = vlan := by unfold hi8 lo8; omega
  rw [hvl]

/-- The central codec round-trip: decoding an encoded frame recovers the vlan
id, the ports, the declared UDP length `8 + payload.length` and exactly the
payload. -/
theorem decode_encode (vlan : Nat) (smac dmac sip dip : List Nat) (sport dport : Nat)
    (payload : List Nat) (hv : vlan < 4096) (hs : sport < 65536) (hd : dport < 65536)
    (hp : payload.length ≤ 65527) :
    decode (encode vlan smac dmac sip dip sport dport payload) =
      .ok ⟨vlan, sport, dport, 8 + payload.length, payload⟩ := by
  have hu : 8 + payload.length < 65536 := by omega
  have htake : payload.take (8 + payload.length - 8) = payload := by
    rw [show 8 + payload.length - 8 = payload.length from by omega, List.take_length]
  unfold encode
  by_cases h0 : vlan = 0
  · subst h0
    rw [decode_buildFrame0 smac dmac sip dip sport dport _ payload hs hd hu, htake]
  · rw [decode_buildFrameV vlan smac dmac sip dip sport dport _ payload hv h0 hs hd hu, htake]

theorem hasTag_encode_pos (vlan : Nat) (smac dmac sip dip : List Nat)
    (sport dport : Nat) (payload : List Nat) (h0 : vlan ≠ 0) :
    hasTag (encode vlan smac dmac sip dip sport dport payload) = true := by
  have hb : encode vlan smac dmac sip dip sport dport payload =
      ethHeader dmac smac ++ (vlanTag vlan ++ [8, 0])
        ++ ipHeader sip dip (20 + (8 + payload.length))
        ++ udpHeader sport dport (8 + payload.length) ++ payload := by
    unfold encode buildFrame; rw [if_neg h0]
  rw [hb]; rfl

theorem hasTag_encode_zero (smac dmac sip dip : List Nat)
    (sport dport : Nat) (payload : List Nat) :
    hasTag (encode 0 smac dmac sip dip sport dport payload) = false := rfl

theorem decodeIpUdp_ok_vlan (vlan : Nat) (b : List Nat) (view : FrameView)
    (h : decodeIpUdp vlan b = .ok view) : view.vlan = vlan := by
  unfold decodeIpUdp at h
  split at h
  · injection h with h; subst h; rfl
  · exact absurd h (by simp)

/-- Decoding a frame that carries no 802.1Q tag yields vlan id `0`. -/
theorem decode_untagged_vlan0 (b : List Nat) (view : FrameView)
    (ht : hasTag b = false) (h : decode b = .ok view) : view.vlan = 0 := by
  unfold decode at h
  split at h
  · exact absurd h (by simp)
  · unfold decodeCore at h
    split at h
    · split at h
      · rename_i hcond
        simp [hasTag] at ht
        omega
      · exact decodeIpUdp_ok_vlan 0 _ view h
    · exact absurd h (by simp)

/-! ## Probe-message lemmas -/

theorem leadsWith_append (p r : List Nat) : leadsWith p (p ++ r) = true := by
  induction p with
  | nil => rfl
  | cons c cs ih => simp [leadsWith, ih]

theorem drop_append_length (p r : List Nat) : (p ++ r).drop p.length = r := by
  simp

theorem splitSpace_append (o r : List Nat) (ho : ∀ c ∈ o, c ≠ 32) :
    splitSpace (o ++ 32 :: r) = some (o, r) := by
  induction o with
  | nil => simp [splitSpace]
  | cons c cs ih =>
      have hc : c ≠ 32 := ho c (by simp)
      have ih2 := ih (fun x hx => ho x (by simp [hx]))
      simp [splitSpace, hc, ih2]

/-- `Parse` recovers what `Serialize` built, for any cookie, any space-free
origin interface and any uid. -/
theorem parse_serialize (cookie origin uid : List Nat) (ho : ∀ c ∈ origin, c ≠ 32) :
    parseProbe (serializeProbe cookie origin uid) cookie = .ok origin uid := by
  unfold parseProbe serializeProbe
  rw [if_pos (by rw [List.append_assoc]; exact leadsWith_append cookie (origin ++ 32 :: uid))]
  rw [List.append_assoc, drop_append_length cookie (origin ++ 32 :: uid)]
  rw [splitSpace_append origin uid ho]

/-- A payload that does not start with the cookie parses to `mismatch`
(foreign traffic, `None`). -/
theorem parse_mismatch (payload cookie : List Nat) (h : leadsWith cookie payload = false) :
    parseProbe payload cookie = .mismatch := by
  unfold parseProbe
  rw [h]
  rfl

/-! ## Report lemmas -/

theorem updA_congr {α β : Type} [DecidableEq α] (k : α) (d : β) (f g : β → β)
    (l : List (α × β)) (h : ∀ b, f b = g b) : updA k d f l = updA k d g l := by
  induction l with
  | nil => simp [updA, h]
  | cons p t ih =>
      unfold updA
      by_cases hk : k = p.1
      · simp [hk, h]
      · simp [hk, ih]

theorem updA_updA {α β : Type} [DecidableEq α] (k : α) (d : β) (f g : β → β)
    (l : List (α × β)) : updA k d f (updA k d g l) = updA k d (fun b => f (g b)) l := by
  induction l with
  | nil => simp [updA]
  | cons p t ih =>
      unfold updA
      by_cases hk : k = p.1
      · simp [hk, updA]
      · simp [hk, updA, ih]

theorem insLeaf_idem (o : List Nat) (s : Leaf) : insLeaf o (insLeaf o s) = insLeaf o s := by
  unfold insLeaf
  by_cases h : o ∈ s
  · simp [h]
  · simp [h]

/-- Inserting the identical observation twice equals inserting it once. -/
theorem insertReport_idem (r : Report) (cif : String) (vlan : Nat) (uid origin : List Nat) :
    insertReport (insertReport r cif vlan uid origin) cif vlan uid origin =
      insertReport r cif vlan uid origin := by
  unfold insertReport
  rw [updA_updA]
  apply updA_congr
  intro vm
  rw [updA_updA]
  apply updA_congr
  intro um
  rw [updA_updA]
  apply updA_congr
  intro s
  exact insLeaf_idem origin s

theorem insertN_eq_one (n : Nat) (r : Report) (cif : String) (vlan : Nat)
    (uid origin : List Nat) (h : 1 ≤ n) :
    insertN n r cif vlan uid origin = insertReport r cif vlan uid origin := by
  induction n generalizing r with
  | zero => omega
  | succ m ih =>
      unfold insertN
      rcases Nat.eq_or_lt_of_le h with h1 | h1
      · have : m = 0 := by omega
        subst this
        rfl
      · rw [ih (insertReport r cif vlan uid origin) (by omega), insertReport_idem]

/-! ## Claims -/

/-- C2 counterexample: starting from a report whose leaf at the key path
`("eth0", 0, "2")` already holds the origin interface `"eth1"`, inserting
the tuple `("eth0", 0, "2", "eth0")` twice (N = 2 > 1) leaves a leaf of
size 2, not 1: the claim's universal quantification over every report state
fails. -/
theorem claim2_counterexample :
    ¬ ((leafAt (insertN 2 (insertReport [] "eth0" 0 (strBytes "2") (strBytes "eth1"))
          "eth0" 0 (strBytes "2") (strBytes "eth0")) "eth0" 0 (strBytes "2")).length = 1) := by
  decide

/-- C2 (amended): for every report state, inserting the same
`(capturing_interface, vlan_id, uid, origin_interface)` tuple N > 1 times
yields exactly the same report as inserting it once — the leaf behaves as a
set and repeated identical observations never accumulate duplicates — and
when the insertions start from a report with nothing at that key path (the
empty report) the innermost collection has size exactly 1. -/
theorem claim2_dedup_invariant (r : Report) (cif : String) (vlan : Nat)
    (uid origin : List Nat) (n : Nat) (h : 1 < n) :
    insertN n r cif vlan uid origin = insertReport r cif vlan uid origin ∧
    (leafAt (insertN n [] cif vlan uid origin) cif vlan uid).length = 1 := by
  constructor
  · exact insertN_eq_one n r cif vlan uid origin (by omega)
  · rw [insertN_eq_one n [] cif vlan uid origin (by omega)]
    simp [insertReport, updA, leafAt, findA, insLeaf]

/-- C2 witness: the amended dedup invariant at the concrete tuple
`("eth0", 0, "2", "eth0")` inserted 3 times. -/
theorem claim2_witness :
    1 < 3 ∧
    (insertN 3 [] "eth0" 0 (strBytes "2") (strBytes "eth0") =
        insertReport [] "eth0" 0 (strBytes "2") (strBytes "eth0") ∧
      (leafAt (insertN 3 [] "eth0" 0 (strBytes "2") (strBytes "eth0"))
          "eth0" 0 (strBytes "2")).length = 1) :=
  ⟨by decide, claim2_dedup_invariant [] "eth0" 0 (strBytes "2") (strBytes "eth0") 3 (by decide)⟩

/-- C3: for every cookie, every origin interface containing no space byte
and not containing the cookie as a substring, and every uid,
`Parse(Serialize(cookie, origin, uid), cookie)` succeeds with exactly the
input origin interface and uid, where `Serialize` produces
`cookie ++ origin ++ " " ++ uid` and `Parse` strips the cookie and splits
on the first space. -/
theorem claim3_roundtrip (cookie origin uid : List Nat)
    (ho : ∀ c ∈ origin, c ≠ 32) (_hc : hasSub cookie origin = false) :
    parseProbe (serializeProbe cookie origin uid) cookie = .ok origin uid :=
  parse_serialize cookie origin uid ho

/-- C3 witness: the round-trip at the test-suite values
`cookie = "Nailgun:"`, `origin = "eth0"`, `uid = "2"`. -/
theorem claim3_witness :
    (∀ c ∈ strBytes "eth0", c ≠ 32) ∧
    hasSub (strBytes "Nailgun:") (strBytes "eth0") = false ∧
    parseProbe (serializeProbe (strBytes "Nailgun:") (strBytes "eth0") (strBytes "2"))
        (strBytes "Nailgun:") =
      .ok (strBytes "eth0") (strBytes "2") :=
  ⟨by decide, by decide,
   claim3_roundtrip (strBytes "Nailgun:") (strBytes "eth0") (strBytes "2")
     (by decide) (by decide)⟩

/-- C4: encoding a frame with vlan id `V ≠ 0` (a valid 12-bit 802.1Q id)
inserts an 802.1Q tag and decoding recovers the same `V`; encoding with
`V = 0` emits a frame without any 802.1Q tag; and decoding any frame without
an 802.1Q tag yields vlan id `0`. -/
theorem claim4_vlan_fidelity :
    (∀ (v : Nat) (smac dmac sip dip : List Nat) (sport dport : Nat) (payload : List Nat),
      0 < v → v < 4096 → sport < 65536 → dport < 65536 → payload.length ≤ 65527 →
      hasTag (encode v smac dmac sip dip sport dport payload) = true ∧
      decode (encode v smac dmac sip dip sport dport payload) =
        .ok ⟨v, sport, dport, 8 + payload.length, payload⟩) ∧
    (∀ (smac dmac sip dip : List Nat) (sport dport : Nat) (payload : List Nat),
      hasTag (encode 0 smac dmac sip dip sport dport payload) = false) ∧
    (∀ (b : List Nat) (view : FrameView), hasTag b = false → decode b = .ok view →
      view.vlan = 0) := by
  refine ⟨fun v smac dmac sip dip sport dport payload h0 hv hs hd hp => ⟨?_, ?_⟩, ?_, ?_⟩
  · exact hasTag_encode_pos v smac dmac sip dip sport dport payload (by omega)
  · exact decode_encode v smac dmac sip dip sport dport payload hv hs hd hp
  · exact fun smac dmac sip dip sport dport payload =>
      hasTag_encode_zero smac dmac sip dip sport dport payload
  · exact fun b view ht h => decode_untagged_vlan0 b view ht h

/-- C4 witness: vlan fidelity at the concrete vlan id 100 with the
test-suite addresses, ports and payload. -/
theorem claim4_witness :
    (hasTag (encode 100 zeroMac broadcastMac ip1 ip1 31337 31337 nailgunPayload) = true ∧
      decode (encode 100 zeroMac broadcastMac ip1 ip1 31337 31337 nailgunPayload) =
        .ok ⟨100, 31337, 31337, 22, nailgunPayload⟩) ∧
    hasTag (encode 0 zeroMac broadcastMac ip1 ip1 31337 31337 nailgunPayload) = false ∧
    (FrameView.mk 0 31337 31337 22 nailgunPayload).vlan = 0 :=
  ⟨claim4_vlan_fidelity.1 100 zeroMac broadcastMac ip1 ip1 31337 31337 nailgunPayload
     (by decide) (by decide) (by decide) (by decide) (by decide),
   claim4_vlan_fidelity.2.1 zeroMac broadcastMac ip1 ip1 31337 31337 nailgunPayload,
   claim4_vlan_fidelity.2.2 normalFrame ⟨0, 31337, 31337, 22, nailgunPayload⟩ rfl rfl⟩

/-- C5: the Listener's capture loop never aborts and never records non-probe
traffic: any frame shorter than the minimum headers decodes to `Malformed`
(decode is total, so no input can crash it); a frame whose decode fails
leaves the report unchanged; a payload not starting with the configured
cookie parses to `mismatch` (None); and a well-formed UDP packet to the
configured destination port whose payload does not start with the cookie
leaves the report unchanged, so it appears nowhere in the final report. -/
theorem claim5_skip_nonprobe :
    (∀ b : List Nat, b.length < 42 → decode b = .error .malformed) ∧
    (∀ (cookie : List Nat) (dport : Nat) (r : Report) (cif : String) (b : List Nat),
      decode b = .error .malformed → processFrame cookie dport r cif b = r) ∧
    (∀ payload cookie : List Nat, leadsWith cookie payload = false →
      parseProbe payload cookie = .mismatch) ∧
    (∀ (cookie : List Nat) (dport : Nat) (r : Report) (cif : String) (b : List Nat)
      (view : FrameView), decode b = .ok view → view.dport = dport →
      leadsWith cookie view.payload = false → processFrame cookie dport r cif b = r) := by
  refine ⟨?_, ?_, ?_, ?_⟩
  · intro b h
    unfold decode
    rw [if_pos h]
  · intro cookie dport r cif b h
    unfold processFrame
    rw [h]
  · exact parse_mismatch
  · intro cookie dport r cif b view hok hdp hlw
    unfold processFrame
    rw [hok]
    show (if view.dport = dport then
        match parseProbe view.payload cookie with
        | ParseResult.ok origin uid => insertReport r cif view.vlan uid origin
        | _ => r
      else r) = r
    rw [if_pos hdp, parse_mismatch view.payload cookie hlw]

/-- C5 witness: a 3-byte truncated frame is `Malformed` and skipped, and a
well-formed UDP frame to port 31337 with foreign payload `"foo bar"` is
parsed as `mismatch` and leaves the report unchanged. -/
theorem claim5_witness :
    decode [0, 1, 2] = .error .malformed ∧
    processFrame (strBytes "Nailgun:") 31337 [] "eth0" [0, 1, 2] = [] ∧
    parseProbe (strBytes "foo bar") (strBytes "Nailgun:") = .mismatch ∧
    processFrame (strBytes "Nailgun:") 31337 [] "eth0"
      (encode 0 zeroMac broadcastMac ip1 ip1 31337 31337 (strBytes "foo bar")) = [] :=
  ⟨claim5_skip_nonprobe.1 [0, 1, 2] (by decide),
   claim5_skip_nonprobe.2.1 (strBytes "Nailgun:") 31337 [] "eth0" [0, 1, 2] rfl,
   claim5_skip_nonprobe.2.2.1 (strBytes "foo bar") (strBytes "Nailgun:") rfl,
   claim5_skip_nonprobe.2.2.2 (strBytes "Nailgun:") 31337 [] "eth0"
     (encode 0 zeroMac broadcastMac ip1 ip1 31337 31337 (strBytes "foo bar"))
     ⟨0, 31337, 31337, 15, strBytes "foo bar"⟩ rfl rfl rfl⟩

/-- C1: decoding slices the UDP payload to the declared length minus 8:
the corrupted-data frame (payload `"Nailgun:eth0 2"`, declared UDP length
22, 8 garbage bytes physically appended) decodes identically to the frame
without the appended bytes, and capturing it 5 times produces the final
report `{"eth0": {"0": {"2": ["eth0"]}}}` with exactly one leaf entry. -/
theorem claim1_truncation_robustness (garbage : List Nat) (_hg : garbage.length = 8) :
    decode (corruptedFrame garbage) = decode normalFrame ∧
    finalReport testCfg (List.replicate 5 ("eth0", corruptedFrame garbage)) =
      [("eth0", [(0, [(strBytes "2", [strBytes "eth0"])])])] ∧
    (leafAt (finalReport testCfg (List.replicate 5 ("eth0", corruptedFrame garbage)))
        "eth0" 0 (strBytes "2")).length = 1 := by
  have hdec : decode (corruptedFrame garbage) = .ok ⟨0, 31337, 31337, 22, nailgunPayload⟩ := by
    unfold corruptedFrame
    rw [decode_buildFrame0 zeroMac broadcastMac ip1 ip1 31337 31337 22
      (nailgunPayload ++ garbage) (by omega) (by omega) (by omega)]
    rw [show (22 - 8 : Nat) = nailgunPayload.length from rfl]
    rw [List.take_left]
  have hstep : ∀ r : Report,
      processFrame testCfg.cookie testCfg.dport r "eth0" (corruptedFrame garbage) =
        insertReport r "eth0" 0 (strBytes "2") (strBytes "eth0") := by
    intro r
    unfold processFrame
    rw [hdec]
    rfl
  have h2 : finalReport testCfg (List.replicate 5 ("eth0", corruptedFrame garbage)) =
      [("eth0", [(0, [(strBytes "2", [strBytes "eth0"])])])] := by
    unfold finalReport
    rw [show List.replicate 5 ("eth0", corruptedFrame garbage) =
      [("eth0", corruptedFrame garbage), ("eth0", corruptedFrame garbage),
       ("eth0", corruptedFrame garbage), ("eth0", corruptedFrame garbage),
       ("eth0", corruptedFrame garbage)] from rfl]
    simp only [List.foldl]
    rw [hstep, hstep, hstep, hstep, hstep]
    rfl
  refine ⟨?_, h2, ?_⟩
  · rw [hdec]; rfl
  · rw [h2]; rfl

/-- C1 witness: the truncation-robustness property at the concrete 8
garbage bytes `"7h 7"` plus four NUL bytes. -/
theorem claim1_witness :
    ([55, 104, 32, 55, 0, 0, 0, 0] : List Nat).length = 8 ∧
    (decode (corruptedFrame [55, 104, 32, 55, 0, 0, 0, 0]) = decode normalFrame ∧
      finalReport testCfg
          (List.replicate 5 ("eth0", corruptedFrame [55, 104, 32, 55, 0, 0, 0, 0])) =
        [("eth0", [(0, [(strBytes "2", [strBytes "eth0"])])])] ∧
      (leafAt (finalReport testCfg
            (List.replicate 5 ("eth0", corruptedFrame [55, 104, 32, 55, 0, 0, 0, 0])))
          "eth0" 0 (strBytes "2")).length = 1) :=
  ⟨by decide, claim1_truncation_robustness [55, 104, 32, 55, 0, 0, 0, 0] (by decide)⟩

/-! ## Sender lemmas -/

theorem map_cat2 {α β γ : Type} (g : β → γ) (f : α → List β) (l : List α) :
    (cat2 f l).map g = cat2 (fun x => (f x).map g) l := by
  induction l with
  | nil => rfl
  | cons x t ih => simp [cat2, ih]

theorem cat2_congr {α β : Type} (f g : α → List β) (l : List α)
    (h : ∀ x : α, f x = g x) : cat2 f l = cat2 g l := by
  induction l with
  | nil => rfl
  | cons x t ih => simp [cat2, h, ih]

theorem mem_cat2 {α β : Type} (f : α → List β) (l : List α) (b : β)
    (h : b ∈ cat2 f l) : ∃ x ∈ l, b ∈ f x := by
  induction l with
  | nil => simp [cat2] at h
  | cons x t ih =>
      unfold cat2 at h
      rcases List.mem_append.1 h with h1 | h1
      · exact ⟨x, by simp, h1⟩
      · obtain ⟨y, hy, hb⟩ := ih h1
        exact ⟨y, by simp [hy], hb⟩

theorem map_decode_inner (iface : String) (payload : List Nat) (smac sip dip : List Nat)
    (sport dport : Nat) (vs : List Nat) (hs : sport < 65536) (hd : dport < 65536)
    (hv : ∀ v ∈ vs, v < 4096) (hp : payload.length ≤ 65527) :
    (vs.map (fun v => (iface, encode v smac broadcastMac sip dip sport dport payload))).map
        (fun t => (t.1, decode t.2)) =
      vs.map (fun v =>
        (iface, Except.ok (FrameView.mk v sport dport (8 + payload.length) payload))) := by
  induction vs with
  | nil => rfl
  | cons v t ih =>
      have hv0 : v < 4096 := hv v (by simp)
      have iht := ih (fun x hx => hv x (by simp [hx]))
      simp only [List.map_cons, iht]
      rw [decode_encode v smac broadcastMac sip dip sport dport payload hv0 hs hd hp]

/-- C6: the Sender emits exactly one frame per configured
`(interface, vlan)` pair, in configuration order (including the untagged
vlan 0 entry), each decoding back to that vlan id and to the payload
`Serialize(cookie, interface, uid)`; consequently the sequence of vlan ids
observable on the wire equals exactly the configured vlan ids.  The Sender
is a total function of the configuration: it terminates after the last
transmission and awaits no acknowledgment. -/
theorem claim6_sender_one_frame_per_pair (cfg : Config)
    (hs : cfg.sport < 65536) (hd : cfg.dport < 65536)
    (hv : ∀ p ∈ cfg.interfaces, ∀ v ∈ parseVlans p.2, v < 4096)
    (hp : ∀ p ∈ cfg.interfaces,
      (serializeProbe cfg.cookie (strBytes p.1) cfg.uid).length ≤ 65527) :
    (senderFrames cfg).map (fun t => (t.1, decode t.2)) =
      cat2 (fun p => (parseVlans p.2).map (fun v =>
        (p.1, Except.ok (FrameView.mk v cfg.sport cfg.dport
          (8 + (serializeProbe cfg.cookie (strBytes p.1) cfg.uid).length)
          (serializeProbe cfg.cookie (strBytes p.1) cfg.uid))))) cfg.interfaces ∧
    (senderFrames cfg).map (fun t => vlanOf t.2) =
      cat2 (fun p => parseVlans p.2) cfg.interfaces := by
  have hmain : ∀ l : List (String × String),
      (∀ p ∈ l, ∀ v ∈ parseVlans p.2, v < 4096) →
      (∀ p ∈ l, (serializeProbe cfg.cookie (strBytes p.1) cfg.uid).length ≤ 65527) →
      (cat2 (fun p => (parseVlans p.2).map (fun v =>
          (p.1, encode v cfg.srcMac broadcastMac cfg.src cfg.dst cfg.sport cfg.dport
            (serializeProbe cfg.cookie (strBytes p.1) cfg.uid)))) l).map
          (fun t => (t.1, decode t.2)) =
        cat2 (fun p => (parseVlans p.2).map (fun v =>
          (p.1, Except.ok (FrameView.mk v cfg.sport cfg.dport
            (8 + (serializeProbe cfg.cookie (strBytes p.1) cfg.uid).length)
            (serializeProbe cfg.cookie (strBytes p.1) cfg.uid))))) l := by
    intro l
    induction l with
    | nil => intro _ _; rfl
    | cons p t ih =>
        intro hv2 hp2
        unfold cat2
        rw [List.map_append]
        rw [map_decode_inner p.1 (serializeProbe cfg.cookie (strBytes p.1) cfg.uid)
          cfg.srcMac cfg.src cfg.dst cfg.sport cfg.dport (parseVlans p.2) hs hd
          (hv2 p (by simp)) (hp2 p (by simp))]
        rw [ih (fun x hx => hv2 x (by simp [hx])) (fun x hx => hp2 x (by simp [hx]))]
  have h1 : (senderFrames cfg).map (fun t => (t.1, decode t.2)) =
      cat2 (fun p => (parseVlans p.2).map (fun v =>
        (p.1, Except.ok (FrameView.mk v cfg.sport cfg.dport
          (8 + (serializeProbe cfg.cookie (strBytes p.1) cfg.uid).length)
          (serializeProbe cfg.cookie (strBytes p.1) cfg.uid))))) cfg.interfaces := by
    unfold senderFrames
    exact hmain cfg.interfaces hv hp
  refine ⟨h1, ?_⟩
  have h2 : (senderFrames cfg).map (fun t => vlanOf t.2) =
      ((senderFrames cfg).map (fun t => (t.1, decode t.2))).map
        (fun q => match q.2 with | .ok view => view.vlan | .error _ => 0) := by
    rw [List.map_map]
    rfl
  rw [h2, h1, map_cat2]
  have h3 : ∀ p : String × String,
      ((parseVlans p.2).map (fun v =>
        (p.1, (Except.ok (FrameView.mk v cfg.sport cfg.dport
          (8 + (serializeProbe cfg.cookie (strBytes p.1) cfg.uid).length)
          (serializeProbe cfg.cookie (strBytes p.1) cfg.uid)) :
            Except DecodeError FrameView)))).map
        (fun q => match q.2 with | .ok view => view.vlan | .error _ => 0) =
      parseVlans p.2 := by
    intro p
    induction parseVlans p.2 with
    | nil => rfl
    | cons v t ih => simp [ih]
  exact cat2_congr _ _ cfg.interfaces h3

/-- C6 witness: the sender-test configuration (`eth0` with vlan string
`"0,100,101,102,106,107,108"`, uid `"2"`) transmits exactly seven frames
whose decoded vlan ids are exactly the configured ones. -/
theorem claim6_witness :
    (senderCfg.sport < 65536 ∧ senderCfg.dport < 65536) ∧
    (senderFrames senderCfg).map (fun t => vlanOf t.2) =
      cat2 (fun p => parseVlans p.2) senderCfg.interfaces :=
  ⟨⟨by decide, by decide⟩,
   (claim6_sender_one_frame_per_pair senderCfg (by decide) (by decide)
     (by decide) (by decide)).2⟩

/-! ## Trace lemmas -/

theorem recordEvents_cases (cookie : List Nat) (dport : Nat) (p : String × List Nat)
    (e : Event) (h : e ∈ recordEvents cookie dport p) :
    ∃ cif vlan uid origin, e = Event.record cif vlan uid origin := by
  unfold recordEvents at h
  split at h
  · simp at h
  · split at h
    · split at h
      · simp at h
        exact ⟨_, _, _, _, h⟩
      · simp at h
    · simp at h

theorem filter_recordEvents_nil (q : Event → Bool)
    (hq : ∀ cif vlan uid origin, q (Event.record cif vlan uid origin) = false)
    (cookie : List Nat) (dport : Nat) (p : String × List Nat) :
    (recordEvents cookie dport p).filter q = [] := by
  rw [List.filter_eq_nil]
  intro e he
  obtain ⟨c, v, u, o, rfl⟩ := recordEvents_cases cookie dport p e he
  simp [hq]

theorem filter_cat2_nil {α : Type} (q : Event → Bool) (f : α → List Event) (l : List α)
    (h : ∀ x ∈ l, (f x).filter q = []) : (cat2 f l).filter q = [] := by
  induction l with
  | nil => rfl
  | cons x t ih =>
      unfold cat2
      rw [List.filter_append, h x (by simp), ih (fun y hy => h y (by simp [hy]))]
      rfl

theorem filter_openmap_nil (q : Event → Bool) (hq : ∀ s, q (Event.openCapture s) = false)
    (l : List (String × String)) :
    (l.map (fun p => Event.openCapture p.1)).filter q = [] := by
  induction l with
  | nil => rfl
  | cons p t ih => simp [List.filter_cons, hq, ih]

theorem listenerTrace_eq (cfg : Config) (captured : List (String × List Nat)) :
    listenerTrace cfg captured =
      (cfg.interfaces.map (fun p => Event.openCapture p.1)) ++
        ([Event.emitReady "READY", Event.closeHandshake] ++
          (cat2 (recordEvents cfg.cookie cfg.dport) captured ++
            [Event.dumpReport cfg.dumpFile (reportJson (finalReport cfg captured))])) := by
  unfold listenerTrace
  simp [List.append_assoc]

/-- C7: in every Listener run the readiness token — exactly the ASCII bytes
`READY`, nothing more — is emitted on the handshake connection exactly once,
at the trace position right after the capture-handle openings (after which
the handshake connection is closed), and every capture-handle opening
occurs strictly before it: no reachable state has the token emitted while
some capture handle is not yet open. -/
theorem claim7_readiness_once_after_open (cfg : Config)
    (captured : List (String × List Nat)) :
    (listenerTrace cfg captured).filter isReady = [Event.emitReady "READY"] ∧
    (listenerTrace cfg captured).get? cfg.interfaces.length =
      some (Event.emitReady "READY") ∧
    (∀ (i : Nat) (e : Event), (listenerTrace cfg captured).get? i = some e →
      isOpen e = true → i < cfg.interfaces.length) := by
  refine ⟨?_, ?_, ?_⟩
  · unfold listenerTrace
    rw [List.filter_append, List.filter_append, List.filter_append]
    rw [filter_openmap_nil isReady (fun s => rfl) cfg.interfaces]
    rw [filter_cat2_nil isReady (recordEvents cfg.cookie cfg.dport) captured
      (fun x _ => filter_recordEvents_nil isReady (fun c v u o => rfl)
        cfg.cookie cfg.dport x)]
    rfl
  · rw [listenerTrace_eq]
    rw [List.get?_append_right (by simp)]
    simp
  · intro i e hget hopen
    by_contra hlt
    push_neg at hlt
    rw [listenerTrace_eq] at hget
    rw [List.get?_append_right (by simpa using hlt)] at hget
    have hmem := List.get?_mem hget
    rcases List.mem_append.1 hmem with h1 | h1
    · simp at h1
      rcases h1 with h1 | h1 <;>
        (rw [h1] at hopen; exact absurd hopen (by simp [isOpen]))
    · rcases List.mem_append.1 h1 with h2 | h2
      · obtain ⟨x, _, hx⟩ := mem_cat2 _ captured e h2
        obtain ⟨c, v, u, o, rfl⟩ :=
          recordEvents_cases cfg.cookie cfg.dport x e hx
        exact absurd hopen (by simp [isOpen])
      · simp at h2
        rw [h2] at hopen
        exact absurd hopen (by simp [isOpen])

/-- C8: in every Listener run the Connectivity Report is serialized exactly
once, to the configured dump path, as the JSON object
`{capturing_interface: {vlan_id_as_string: {uid_as_string: [origin, ...]}}}`
(vlan ids rendered as decimal strings); the dump is the final event of the
run — after it the Listener exits, and no other event writes the report.
The third conjunct shows the rendering on the corrupted-data test report. -/
theorem claim8_dump_report_once (cfg : Config) (captured : List (String × List Nat)) :
    (listenerTrace cfg captured).filter isDump =
      [Event.dumpReport cfg.dumpFile (reportJson (finalReport cfg captured))] ∧
    (listenerTrace cfg captured).getLast? =
      some (Event.dumpReport cfg.dumpFile (reportJson (finalReport cfg captured))) ∧
    reportJson [("eth0", [(0, [(strBytes "2", [strBytes "eth0"])])])] =
      Json.obj [("eth0", Json.obj [("0", Json.obj [("2", Json.arr [Json.str "eth0"])])])] := by
  refine ⟨?_, ?_, rfl⟩
  · unfold listenerTrace
    rw [List.filter_append, List.filter_append, List.filter_append]
    rw [filter_openmap_nil isDump (fun s => rfl) cfg.interfaces]
    rw [filter_cat2_nil isDump (recordEvents cfg.cookie cfg.dport) captured
      (fun x _ => filter_recordEvents_nil isDump (fun c v u o => rfl)
        cfg.cookie cfg.dport x)]
    rfl
  · unfold listenerTrace
    exact List.getLast?_concat _

/-- C9: the configuration encodes each interface's vlan ids as a single
comma-separated string of decimal numbers (the `Config.interfaces` field is
a string-valued map, parsed by `parseVlans`); the test string parses with
vlan 100 appearing twice, yet after the Sender transmits one frame per
parsed entry and the Listener captures them all, the final report has
exactly one `100` key and no duplicated leaf entries. -/
theorem claim9_comma_separated_vlans :
    parseVlans "0,100,100,101,102,103,104,105,106,107" =
      [0, 100, 100, 101, 102, 103, 104, 105, 106, 107] ∧
    vlanKeys (finalReport testCfg (senderFrames testCfg)) "eth0" =
      [0, 100, 101, 102, 103, 104, 105, 106, 107] ∧
    (vlanKeys (finalReport testCfg (senderFrames testCfg)) "eth0").count 100 = 1 ∧
    leafAt (finalReport testCfg (senderFrames testCfg)) "eth0" 100 (strBytes "2") =
      [strBytes "eth0"] := by
  refine ⟨by decide, by decide, by decide, by decide⟩

/-- C10: the vlan keys of the report are determined solely by the captured
traffic, not by the configured vlan list: the final report does not depend
on the `interfaces` field at all (any two configurations agreeing on cookie
and destination port yield the same report), a configured-but-unobserved
vlan id (the untagged 0 of the pcap scenario) produces no key, and an
observed-but-unconfigured vlan id (999) does produce a key. -/
theorem claim10_report_keys_from_traffic (cfg cfg2 : Config)
    (captured : List (String × List Nat))
    (hck : cfg.cookie = cfg2.cookie) (hdp : cfg.dport = cfg2.dport) :
    finalReport cfg captured = finalReport cfg2 captured ∧
    vlanKeys (finalReport testCfg pcapCaptured) "eth0" =
      [100, 101, 102, 103, 104, 105, 106, 107, 999] ∧
    findA 0 ((findA "eth0" (finalReport testCfg pcapCaptured)).getD []) = none := by
  refine ⟨?_, by decide, by decide⟩
  unfold finalReport
  rw [hck, hdp]

/-- C10 witness: two configurations sharing cookie and destination port but
with different interface/vlan maps produce the identical report on the pcap
traffic. -/
theorem claim10_witness :
    finalReport testCfg pcapCaptured = finalReport senderCfg pcapCaptured ∧
    vlanKeys (finalReport testCfg pcapCaptured) "eth0" =
      [100, 101, 102, 103, 104, 105, 106, 107, 999] ∧
    findA 0 ((findA "eth0" (finalReport testCfg pcapCaptured)).getD []) = none :=
  claim10_report_keys_from_traffic testCfg senderCfg pcapCaptured rfl rfl

end NetCheck
